import Mathlib

/-!
Shallow embedding of the learn-file-storage-s3 upload handlers
(src/api/videos.ts, src/api/thumbnails.ts, and the in-memory thumbnail
revision) together with theorems checking the specification's claims.

Modeling conventions:
* machine numbers are Nat / Int / ℚ (JS number arithmetic on the aspect
  classification is modeled as exact rational arithmetic);
* effectful collaborators (Bun.write, ffmpeg, ffprobe, the S3 client, the
  filesystem) are passed in as explicit outcomes / explicit state;
* thrown errors are Except values over the handler error taxonomy.
-/

/-- Error taxonomy of the handlers: BadRequestError, UserNotAuthenticated,
UserForbiddenError, NotFoundError, plus generic thrown Error values
(filesystem and external-tool failures), which surface as HTTP 500. -/
inductive Err where
  | badRequest (msg : String)
  | unauthorized (msg : String)
  | forbidden (msg : String)
  | notFound (msg : String)
  | internal (msg : String)
  deriving Repr, DecidableEq

/-- A row of the videos table: id, owning user, the two mutable URL
fields. -/
structure Video where
  id : String
  userID : String
  thumbnailURL : Option String
  videoURL : Option String
  deriving Repr, DecidableEq

/-- getVideo(db, id): persistence lookup. The db is modeled as the list of
rows; lookup is by the id column. -/
def getVideo (db : List Video) (videoId : String) : Option Video :=
  db.find? (fun v => v.id == videoId)

/-- updateVideo(db, video): UPDATE the rows WHERE id = video.id. -/
def updateVideo (db : List Video) (v : Video) : List Video :=
  db.map (fun w => if w.id == v.id then v else w)

/-- Outcome of one spawned subprocess: exit code and the fully drained
stdout / stderr text. -/
structure ToolOutcome where
  exitCode : Nat
  stdoutText : String
  stderrText : String
  deriving Repr, DecidableEq

/-- One entry of the streams array of ffprobe's JSON output. width or
height may be absent, in which case Number(stream?.width) is NaN and the
finiteness check fails. -/
structure ProbeStream where
  width : Option ℚ
  height : Option ℚ
  deriving Repr, DecidableEq

/-- What the ffprobe call inside getVideoAspectRatio can observe: the
process outcome, and the parse of its stdout (none models a JSON.parse
throw; the list is the streams array, a missing streams field behaves as
the empty list). -/
structure ProbeEnv where
  run : ToolOutcome
  parsed : Option (List ProbeStream)
  deriving Repr, DecidableEq

/-- Math.abs on the rational model of JS numbers. -/
def mathAbs (x : ℚ) : ℚ := if 0 ≤ x then x else -x

/-- Lines 125-135 of getVideoAspectRatio: classify the width/height ratio
against 16/9 and 9/16 with absolute tolerance 0.02, landscape checked
first, both comparisons inclusive. -/
def classifyAspect (ratio : ℚ) : String :=
  if mathAbs (ratio - 16/9) ≤ 2/100 then "landscape"
  else if mathAbs (ratio - 9/16) ≤ 2/100 then "portrait"
  else "other"

/-- getVideoAspectRatio (videos.ts lines 90-136) as a function of the
observed ffprobe outcome. A thrown Error is an Except.error carrying the
message. -/
def getVideoAspectRatio (filePath : String) (env : ProbeEnv) :
    Except String String :=
  if env.run.exitCode ≠ 0 then
    .error ("ffprobe failed with exit code " ++ toString env.run.exitCode
      ++ ": " ++ env.run.stderrText)
  else
    match env.parsed with
    | none => .error "Unexpected end of JSON input"
    | some streams =>
      match streams.head? with
      | none => .error "ffprobe did not return valid width/height"
      | some stream =>
        match stream.width, stream.height with
        | some width, some height =>
          if width ≤ 0 ∨ height ≤ 0 then
            .error "ffprobe did not return valid width/height"
          else
            .ok (classifyAspect (width / height))
        | _, _ => .error "ffprobe did not return valid width/height"

/-- processVideoForFastStart (videos.ts lines 138-168): the output path is
the input path plus the fixed ".processed" suffix; a non-zero ffmpeg exit
is a thrown Error carrying stderr, or stdout when stderr is empty. -/
def processVideoForFastStart (inputFilePath : String) (t : ToolOutcome) :
    Except String String :=
  let outputFilePath := inputFilePath ++ ".processed"
  if t.exitCode ≠ 0 then
    .error ("ffmpeg faststart failed with exit code " ++ toString t.exitCode
      ++ ": " ++ (if t.stderrText ≠ "" then t.stderrText else t.stdoutText))
  else
    .ok outputFilePath

/-- MAX_UPLOAD_SIZE = 1 << 30 (videos.ts line 13), one GiB. -/
def MAX_UPLOAD_SIZE : Nat := 2 ^ 30

/-- MAX_UPLOAD_SIZE = 10 << 20 (thumbnails.ts line 33), ten MiB. -/
def MAX_THUMBNAIL_SIZE : Nat := 10 * 2 ^ 20

/-- path.extname: the extension of the basename from its last dot to the
end; empty when the basename has no dot, or when its only dot is the
leading character. -/
def extname (p : String) : String :=
  let base := (p.toList.reverse.takeWhile (fun c => c ≠ '/')).reverse
  match base with
  | [] => ""
  | _ :: rest =>
    if '.' ∈ rest then
      String.mk ('.' :: (rest.reverse.takeWhile (fun c => c ≠ '.')).reverse)
    else ""

/-- path.join of a directory and a file name (the handlers join a
configured root with a generated name; no normalization is involved). -/
def pathJoin (dir name : String) : String := dir ++ "/" ++ name

/-- node:fs/promises rm without the force option: rejects with ENOENT when
the path does not exist. The filesystem is the list of existing paths. -/
def rmFile (p : String) (fs : List String) : Except Err (List String) :=
  if p ∈ fs then .ok (fs.erase p) else .error (.internal "ENOENT")

/-- The configuration fields the handlers read. -/
structure ApiConfig where
  jwtSecret : String
  filepathRoot : String
  assetsRoot : String
  s3Bucket : String
  s3Region : String
  port : String
  deriving Repr, DecidableEq

/-- The value formData.get returns: isFile = false models a non-File form
value (a string); a missing field is Option.none at the call site. -/
structure UploadedFile where
  isFile : Bool
  name : String
  size : Nat
  type : String
  deriving Repr, DecidableEq

/-- Observable side effects of one handlerUploadVideo invocation, in
program order. -/
inductive Event where
  | writeTemp (path : String)
  | spawnFfmpeg (inputPath : String)
  | spawnFfprobe (path : String)
  | s3Write (key : String)
  | dbUpdate (videoId : String)
  | rmCall (path : String)
  deriving Repr, DecidableEq

/-- Decidable equality for Except values, so that outcomes can be compared
by evaluation in concrete witnesses. -/
instance {ε α : Type} [DecidableEq ε] [DecidableEq α] :
    DecidableEq (Except ε α) := fun x y =>
  match x, y with
  | .ok a, .ok b =>
    match decEq a b with
    | isTrue h => isTrue (h ▸ rfl)
    | isFalse h => isFalse fun c => h (Except.ok.inj c)
  | .error a, .error b =>
    match decEq a b with
    | isTrue h => isTrue (h ▸ rfl)
    | isFalse h => isFalse fun c => h (Except.error.inj c)
  | .ok _, .error _ => isFalse fun c => Except.noConfusion c
  | .error _, .ok _ => isFalse fun c => Except.noConfusion c

/-- The nondeterministic inputs one handlerUploadVideo invocation consumes:
the route parameter, the JWT validation outcome, the form payload, the
random 16-byte hex fileID, and the outcomes of Bun.write, ffmpeg, ffprobe
and the S3 write. -/
structure VideoEnv where
  videoIdParam : Option String
  auth : Except Err String
  payload : Option UploadedFile
  fileID : String
  writeOk : Bool
  ffmpeg : ToolOutcome
  probe : ProbeEnv
  s3Ok : Bool
  deriving Repr, DecidableEq

/-- The S3 key built at videos.ts line 64: aspect-class prefix, random
fileID, fixed ".mp4" suffix. -/
def s3KeyFor (aspect fileID : String) : String :=
  aspect ++ "/" ++ fileID ++ ".mp4"

/-- The public URL built at videos.ts line 73: string composition of the
configured bucket and region base with the key. -/
def videoURLFor (cfg : ApiConfig) (s3Key : String) : String :=
  "https://" ++ cfg.s3Bucket ++ ".s3." ++ cfg.s3Region
    ++ ".amazonaws.com/" ++ s3Key

/-- State at the end of the try-block of handlerUploadVideo (videos.ts
lines 57-76): its outcome, the processedFilePath local, db, filesystem and
the events so far. -/
structure BodyOut where
  result : Except Err Video
  processedFilePath : Option String
  db : List Video
  fs : List String
  events : List Event
  deriving Repr, DecidableEq

/-- Full outcome of handlerUploadVideo: the HTTP result (status and JSON
body on success), final db and filesystem, and the event trace. -/
structure VideoOutcome where
  result : Except Err (Nat × Option Video)
  db : List Video
  fs : List String
  events : List Event
  deriving Repr, DecidableEq

/-- The try-block of handlerUploadVideo (videos.ts lines 57-76): stage the
upload with Bun.write, remux (processVideoForFastStart), probe and
classify (getVideoAspectRatio), S3 write, then update the record. A failed
Bun.write or a failed ffmpeg run is modeled as creating no file; note that
on an ffmpeg failure the processedFilePath local is never assigned. -/
def uploadVideoBody (cfg : ApiConfig) (env : VideoEnv) (video : Video)
    (tempFilePath : String) (db : List Video) (fs : List String) : BodyOut :=
  if ¬ env.writeOk then
    ⟨.error (.internal "Bun.write failed"), none, db, fs,
      [.writeTemp tempFilePath]⟩
  else
    let fs1 := tempFilePath :: fs
    match processVideoForFastStart tempFilePath env.ffmpeg with
    | .error msg =>
      ⟨.error (.internal msg), none, db, fs1,
        [.writeTemp tempFilePath, .spawnFfmpeg tempFilePath]⟩
    | .ok processedFilePath =>
      let fs2 := processedFilePath :: fs1
      match getVideoAspectRatio processedFilePath env.probe with
      | .error msg =>
        ⟨.error (.internal msg), some processedFilePath, db, fs2,
          [.writeTemp tempFilePath, .spawnFfmpeg tempFilePath,
           .spawnFfprobe processedFilePath]⟩
      | .ok aspect =>
        let s3Key := s3KeyFor aspect env.fileID
        if ¬ env.s3Ok then
          ⟨.error (.internal "S3 write failed"), some processedFilePath, db, fs2,
            [.writeTemp tempFilePath, .spawnFfmpeg tempFilePath,
             .spawnFfprobe processedFilePath, .s3Write s3Key]⟩
        else
          let videoURL := videoURLFor cfg s3Key
          let video2 := { video with videoURL := some videoURL }
          ⟨.ok video2, some processedFilePath, updateVideo db video2, fs2,
            [.writeTemp tempFilePath, .spawnFfmpeg tempFilePath,
             .spawnFfprobe processedFilePath, .s3Write s3Key,
             .dbUpdate video2.id]⟩

/-- handlerUploadVideo (videos.ts lines 15-88): route parameter check,
auth, resource resolution, ownership, payload validation, then the
try/finally pipeline. An error thrown out of the finally block replaces
the outcome of the try-block, as in JS; on success the response re-fetches
the record by video.id. -/
def handlerUploadVideo (cfg : ApiConfig) (env : VideoEnv)
    (db : List Video) (fs : List String) : VideoOutcome :=
  match env.videoIdParam with
  | none => ⟨.error (.badRequest "Invalid video ID"), db, fs, []⟩
  | some videoId =>
    match env.auth with
    | .error e => ⟨.error e, db, fs, []⟩
    | .ok userID =>
      match getVideo db videoId with
      | none => ⟨.error (.notFound "Couldn't find video"), db, fs, []⟩
      | some video =>
        if video.userID ≠ userID then
          ⟨.error (.forbidden "Video does not belong to this user"), db, fs, []⟩
        else match env.payload with
        | none => ⟨.error (.badRequest "video is not a file"), db, fs, []⟩
        | some videoFile =>
          if videoFile.isFile = false then
            ⟨.error (.badRequest "video is not a file"), db, fs, []⟩
          else if videoFile.size > MAX_UPLOAD_SIZE then
            ⟨.error (.badRequest "Video is larger than 1GB"), db, fs, []⟩
          else if videoFile.type ≠ "video/mp4" then
            ⟨.error (.badRequest "Only MP4 video files are allowed"), db, fs, []⟩
          else
            let tempFilePath :=
              pathJoin cfg.filepathRoot (env.fileID ++ extname videoFile.name)
            let b := uploadVideoBody cfg env video tempFilePath db fs
            match rmFile tempFilePath b.fs with
            | .error e => ⟨.error e, b.db, b.fs, b.events ++ [.rmCall tempFilePath]⟩
            | .ok fsA =>
              match b.processedFilePath with
              | some p =>
                match rmFile p fsA with
                | .error e =>
                  ⟨.error e, b.db, fsA,
                    b.events ++ [.rmCall tempFilePath, .rmCall p]⟩
                | .ok fsB =>
                  match b.result with
                  | .error e =>
                    ⟨.error e, b.db, fsB,
                      b.events ++ [.rmCall tempFilePath, .rmCall p]⟩
                  | .ok _ =>
                    ⟨.ok (200, getVideo b.db video.id), b.db, fsB,
                      b.events ++ [.rmCall tempFilePath, .rmCall p]⟩
              | none =>
                match b.result with
                | .error e =>
                  ⟨.error e, b.db, fsA, b.events ++ [.rmCall tempFilePath]⟩
                | .ok _ =>
                  ⟨.ok (200, getVideo b.db video.id), b.db, fsA,
                    b.events ++ [.rmCall tempFilePath]⟩

/-- JS String.prototype.split with a one-character separator, on char
lists: the empty string splits to [""], a trailing separator yields a
trailing empty segment. -/
def jsSplit (sep : Char) : List Char → List (List Char)
  | [] => [[]]
  | c :: cs =>
    if c = sep then [] :: jsSplit sep cs
    else
      match jsSplit sep cs with
      | [] => [[c]]
      | t :: ts => (c :: t) :: ts

/-- The nondeterministic inputs one handlerUploadThumbnail invocation
consumes: route parameter, JWT validation outcome, the form payload, and
the random 32-byte base64 fileID. -/
structure ThumbEnv where
  videoIdParam : Option String
  auth : Except Err String
  payload : Option UploadedFile
  fileID : String
  deriving Repr, DecidableEq

/-- Outcome of handlerUploadThumbnail: the HTTP result, final db and
filesystem. -/
structure ThumbOutcome where
  result : Except Err (Nat × Option Video)
  db : List Video
  fs : List String
  deriving Repr, DecidableEq

/-- handlerUploadThumbnail, filesystem-storage revision (thumbnails.ts
lines 15-73): parameter check, auth, payload validation (File check, then
the 10 MiB size ceiling), resource resolution, ownership, extension from
mediaType.split of the slash at index 1 (BadRequest when that segment is
missing or empty), Bun.write under assetsRoot, URL update, re-fetch by
video.id. -/
def handlerUploadThumbnail (cfg : ApiConfig) (env : ThumbEnv)
    (db : List Video) (fs : List String) : ThumbOutcome :=
  match env.videoIdParam with
  | none => ⟨.error (.badRequest "Invalid video ID"), db, fs⟩
  | some videoId =>
    match env.auth with
    | .error e => ⟨.error e, db, fs⟩
    | .ok userID =>
      match env.payload with
      | none => ⟨.error (.badRequest "thumbnail is not a file"), db, fs⟩
      | some imageFile =>
        if imageFile.isFile = false then
          ⟨.error (.badRequest "thumbnail is not a file"), db, fs⟩
        else if imageFile.size > MAX_THUMBNAIL_SIZE then
          ⟨.error (.badRequest "thumbnail is larger than 10MB"), db, fs⟩
        else
          let mediaType := imageFile.type
          match getVideo db videoId with
          | none => ⟨.error (.notFound "Couldn't find video"), db, fs⟩
          | some video =>
            if video.userID ≠ userID then
              ⟨.error (.forbidden "Video does not belong to this user"), db, fs⟩
            else
              match (jsSplit '/' mediaType.toList)[1]? with
              | none => ⟨.error (.badRequest "Invlid media type"), db, fs⟩
              | some ext =>
                if ext = [] then
                  ⟨.error (.badRequest "Invlid media type"), db, fs⟩
                else
                  let fileName := env.fileID ++ "." ++ String.mk ext
                  let filePath := pathJoin cfg.assetsRoot fileName
                  let fs2 := filePath :: fs
                  let thumbnailURL :=
                    "http://localhost:" ++ cfg.port ++ "/assets/" ++ fileName
                  let video2 := { video with thumbnailURL := some thumbnailURL }
                  let db2 := updateVideo db video2
                  ⟨.ok (200, getVideo db2 video.id), db2, fs2⟩

/-- An entry of the process-local videoThumbnails map (in-memory
revision): raw bytes and the declared media type. -/
structure Thumbnail where
  data : List Nat
  mediaType : String
  deriving Repr, DecidableEq

/-- The Response handlerGetThumbnail builds: body bytes, Content-Type and
Cache-Control headers. -/
structure ThumbResponse where
  body : List Nat
  contentType : String
  cacheControl : String
  deriving Repr, DecidableEq

/-- handlerGetThumbnail (in-memory thumbnail-storage revision): its inputs
are only the db, the process-local map and the route parameter — no
credential is read and no ownership is checked. -/
def handlerGetThumbnail (db : List Video)
    (videoThumbnails : List (String × Thumbnail))
    (videoIdParam : Option String) : Except Err ThumbResponse :=
  match videoIdParam with
  | none => .error (.badRequest "Invalid video ID")
  | some videoId =>
    match getVideo db videoId with
    | none => .error (.notFound "Couldn't find video")
    | some _ =>
      match videoThumbnails.lookup videoId with
      | none => .error (.notFound "Thumbnail not found")
      | some t => .ok ⟨t.data, t.mediaType, "no-store"⟩

/-- The width/height pair getVideoAspectRatio extracts from the probe
output: none when the JSON did not parse, there is no first stream, or a
dimension is missing (the NaN cases of Number(stream?.width)). -/
def probeDims (e : ProbeEnv) : Option (ℚ × ℚ) :=
  match e.parsed with
  | none => none
  | some streams =>
    match streams.head? with
    | none => none
    | some s =>
      match s.width, s.height with
      | some w, some h => some (w, h)
      | _, _ => none

/-- Recognizer for durable-storage write events. -/
def Event.isS3Write : Event → Bool
  | .s3Write _ => true
  | _ => false

/-- True when somewhere in the trace a durable-storage write is
immediately followed by a record update. -/
def publishThenUpdate : List Event → Bool
  | Event.s3Write _ :: Event.dbUpdate _ :: _ => true
  | _ :: rest => publishThenUpdate rest
  | [] => false

/-- Stated from the claim's words for C10: the segment of the media type
after the first slash, up to the next slash; none when there is no
slash. To be compared with the source's split-and-index-1. -/
def specSubtypeSegment (s : List Char) : Option (List Char) :=
  match s.dropWhile (fun x => x ≠ '/') with
  | [] => none
  | _ :: rest => some (rest.takeWhile (fun x => x ≠ '/'))

/-- Concrete configuration used by witnesses. -/
def cfg0 : ApiConfig :=
  ⟨"secret", "/tmp/videos", "/assets", "bucket", "us-east-1", "8091"⟩

/-- Concrete video row owned by alice. -/
def videoA : Video := ⟨"v1", "alice", none, none⟩

/-- Concrete one-row database. -/
def db0 : List Video := [videoA]

/-- A valid 1000-byte MP4 form file. -/
def goodFile : UploadedFile := ⟨true, "clip.mp4", 1000, "video/mp4"⟩

/-- A probe observation: clean exit, one 1920x1080 stream. -/
def probeOk : ProbeEnv := ⟨⟨0, "", ""⟩, some [⟨some 1920, some 1080⟩]⟩

/-- A fully successful video-upload environment for the owner alice. -/
def envOk : VideoEnv :=
  ⟨some "v1", .ok "alice", some goodFile, "abcd", true, ⟨0, "", ""⟩, probeOk, true⟩

/-- The same environment with a failing Bun.write (staging creates no
file). -/
def envNoWrite : VideoEnv := { envOk with writeOk := false }

/-- The same environment with a wrong declared media type. -/
def envBadType : VideoEnv :=
  { envOk with payload := some { goodFile with type := "video/quicktime" } }

/-- The same environment with a failing ffmpeg run. -/
def envFfmpegFail : VideoEnv := { envOk with ffmpeg := ⟨1, "", "boom"⟩ }

/-- A thumbnail-upload environment: bob targets alice's video with a
non-File payload. -/
def envTB : ThumbEnv :=
  ⟨some "v1", .ok "bob", some ⟨false, "x", 5, "text/plain"⟩, "fid"⟩

/-- A thumbnail-upload environment: bob targets alice's video with a valid
payload. -/
def envTBValid : ThumbEnv :=
  ⟨some "v1", .ok "bob", some ⟨true, "x.png", 5, "image/png"⟩, "fid"⟩

/-- A thumbnail-upload environment: the owner alice, valid PNG payload. -/
def envTA : ThumbEnv :=
  ⟨some "v1", .ok "alice", some ⟨true, "x.png", 5, "image/png"⟩, "fid"⟩

/-- A concrete in-memory thumbnail map holding bytes for v1. -/
def thumbs0 : List (String × Thumbnail) := [("v1", ⟨[1, 2, 3], "image/png"⟩)]

/-- The v1 row after the successful envOk video upload. -/
def videoA2 : Video :=
  { videoA with
    videoURL := some "https://bucket.s3.us-east-1.amazonaws.com/landscape/abcd.mp4" }

/-- Math.abs agrees with the mathematical absolute value. -/
lemma mathAbs_eq_abs (x : ℚ) : mathAbs x = |x| := by
  rw [mathAbs]
  split
  · exact (abs_of_nonneg (by assumption)).symm
  · exact (abs_of_neg (lt_of_not_le (by assumption))).symm

/-- Claim C2: for every pair of positive dimensions, a ratio within 0.02
of 16/9 (inclusive) classifies landscape, a ratio within 0.02 of 9/16
(inclusive) classifies portrait — the two bands are disjoint, so the
if-chain order cannot misclassify — and everything else classifies
other. -/
theorem aspect_classification (width height : ℚ)
    (hw : 0 < width) (hh : 0 < height) :
    (|width / height - 16/9| ≤ 2/100 →
      classifyAspect (width / height) = "landscape") ∧
    (|width / height - 9/16| ≤ 2/100 →
      classifyAspect (width / height) = "portrait") ∧
    (¬ |width / height - 16/9| ≤ 2/100 → ¬ |width / height - 9/16| ≤ 2/100 →
      classifyAspect (width / height) = "other") := by
  refine ⟨?_, ?_, ?_⟩
  · intro h1
    simp [classifyAspect, mathAbs_eq_abs, h1]
  · intro h1
    have hdisj : ¬ |width / height - 16/9| ≤ 2/100 := by
      rw [abs_le] at h1 ⊢
      push_neg
      intro hc
      exfalso
      linarith [h1.2]
    simp [classifyAspect, mathAbs_eq_abs, hdisj, h1]
  · intro h1 h2
    simp [classifyAspect, mathAbs_eq_abs, h1, h2]

/-- Witness for C2 at the two tolerance edges: 809/450 = 16/9 + 1/50 is
classified landscape and 217/400 = 9/16 − 1/50 is classified portrait. -/
theorem aspect_classification_witness :
    (0 : ℚ) < 809 ∧ (0 : ℚ) < 450 ∧
    classifyAspect ((809 : ℚ) / 450) = "landscape" ∧
    classifyAspect ((217 : ℚ) / 400) = "portrait" :=
  ⟨by norm_num, by norm_num,
   (aspect_classification 809 450 (by norm_num) (by norm_num)).1
     (by rw [abs_le]; constructor <;> norm_num),
   (aspect_classification 217 400 (by norm_num) (by norm_num)).2.1
     (by rw [abs_le]; constructor <;> norm_num)⟩

/-- A path never equals itself with the ".processed" suffix appended. -/
lemma append_processed_ne (s : String) : s ++ ".processed" ≠ s := by
  intro h
  have h2 := congrArg String.length h
  rw [String.length_append] at h2
  have h3 : (".processed" : String).length = 10 := rfl
  omega

/-- Removing a path that heads the filesystem list succeeds and drops that
entry. -/
lemma rm_head (p : String) (fs : List String) : rmFile p (p :: fs) = .ok fs := by
  rw [rmFile, if_pos (List.mem_cons_self p fs), List.erase_cons_head]

/-- Removing the staged path from [processed, staged, rest] succeeds and
leaves [processed, rest]. -/
lemma rm_temp_after_processed (t : String) (fs : List String) :
    rmFile t ((t ++ ".processed") :: t :: fs) = .ok ((t ++ ".processed") :: fs) := by
  have hne : ¬ (((t ++ ".processed") == t) = true) := by
    simp [append_processed_ne t]
  rw [rmFile, if_pos (List.mem_cons_of_mem _ (List.mem_cons_self t fs)),
    List.erase_cons_tail hne, List.erase_cons_head]

/-- A record found by getVideo carries the id it was looked up by. -/
lemma getVideo_some_id {db : List Video} {i : String} {v : Video}
    (h : getVideo db i = some v) : v.id = i := by
  have := List.find?_some h
  simpa using this

/-- After updateVideo with a record keyed i, getVideo at i returns exactly
that record, provided i was present before. -/
lemma getVideo_updateVideo {db : List Video} {i : String} {v v2 : Video}
    (h : getVideo db i = some v) (h2 : v2.id = i) :
    getVideo (updateVideo db v2) i = some v2 := by
  induction db with
  | nil => simp [getVideo] at h
  | cons w rest ih =>
    by_cases hw : w.id = i
    · simp [getVideo, updateVideo, List.find?_cons, hw, h2]
    · simp only [getVideo, updateVideo, List.map_cons, List.find?_cons] at h ⊢
      have hb : (w.id == i) = false := by simp [hw]
      rw [hb] at h
      have hb2 : ((if w.id == v2.id then v2 else w).id == i) = false := by
        rw [if_neg]
        · exact hb
        · simp [h2, hw]
      rw [hb2]
      exact ih h

/-- The head of a JS split is the take-while up to the separator. -/
lemma jsSplit_head (sep : Char) (cs : List Char) :
    ∃ ts, jsSplit sep cs = cs.takeWhile (fun x => x ≠ sep) :: ts := by
  induction cs with
  | nil => exact ⟨[], rfl⟩
  | cons c cs ih =>
    by_cases hc : c = sep
    · refine ⟨jsSplit sep cs, ?_⟩
      simp [jsSplit, hc]
    · obtain ⟨ts, hts⟩ := ih
      refine ⟨ts, ?_⟩
      simp [jsSplit, hc, hts]

/-- Index 1 of the JS split at the slash is exactly the claim's "segment
after the first slash". -/
lemma jsSplit_idx1 (cs : List Char) :
    (jsSplit '/' cs)[1]? = specSubtypeSegment cs := by
  induction cs with
  | nil => rfl
  | cons c cs ih =>
    by_cases hc : c = '/'
    · obtain ⟨ts, hts⟩ := jsSplit_head '/' cs
      simp [jsSplit, hc, hts, specSubtypeSegment]
    · obtain ⟨ts, hts⟩ := jsSplit_head '/' cs
      rw [hts] at ih
      simp only [jsSplit, if_neg hc, hts]
      have hpred : (fun x => decide (x ≠ '/')) c = true := by simp [hc]
      rw [List.getElem?_cons_succ]
      rw [List.getElem?_cons_succ] at ih
      simp only [specSubtypeSegment, List.dropWhile_cons, hpred, if_true]
      simp only [specSubtypeSegment] at ih
      exact ih

/-- The probe outcome does not depend on the path argument, only on the
observed subprocess data. -/
lemma getVideoAspectRatio_path (p q : String) (e : ProbeEnv) :
    getVideoAspectRatio p e = getVideoAspectRatio q e := rfl

/-- The fixture probe observation classifies landscape for any path. -/
lemma probe_landscape (p : String) :
    getVideoAspectRatio p probeOk = .ok "landscape" := by
  simp only [getVideoAspectRatio, probeOk]
  norm_num
  simp only [classifyAspect, sub_self, mathAbs_eq_abs, abs_zero]
  rw [if_pos (by norm_num : ((0 : ℚ) ≤ 2/100))]

/-- Full evaluation of the fixture upload: staged, remuxed, classified
landscape, published, record updated, both temp files removed. -/
lemma envOk_run : handlerUploadVideo cfg0 envOk db0 [] =
    ⟨.ok (200, some videoA2), [videoA2], [],
     [.writeTemp "/tmp/videos/abcd.mp4", .spawnFfmpeg "/tmp/videos/abcd.mp4",
      .spawnFfprobe "/tmp/videos/abcd.mp4.processed",
      .s3Write "landscape/abcd.mp4", .dbUpdate "v1",
      .rmCall "/tmp/videos/abcd.mp4", .rmCall "/tmp/videos/abcd.mp4.processed"]⟩ := by
  simp [handlerUploadVideo, uploadVideoBody, envOk, cfg0, db0, goodFile,
    videoA, videoA2, getVideo, updateVideo, processVideoForFastStart,
    probe_landscape, extname, pathJoin, rmFile, s3KeyFor, videoURLFor,
    MAX_UPLOAD_SIZE]

/-- Claim C3 (amended): for the video handler, a request by a non-owner
fails Forbidden with no side effects regardless of the payload. For the
thumbnail handler, a non-owner request fails Forbidden when the payload is
a File within the size ceiling, and never succeeds and never yields
NotFound for any payload — but payload validation runs first, so an
absent/non-file/oversized payload yields BadRequest rather than
Forbidden. -/
theorem ownership_forbidden_amended (cfg : ApiConfig) (env : VideoEnv)
    (te : ThumbEnv) (db : List Video) (fs : List String)
    (videoId userID tVideoId tUserID : String) (video tVideo : Video)
    (h1 : env.videoIdParam = some videoId) (h2 : env.auth = .ok userID)
    (h3 : getVideo db videoId = some video) (h4 : video.userID ≠ userID)
    (g1 : te.videoIdParam = some tVideoId) (g2 : te.auth = .ok tUserID)
    (g3 : getVideo db tVideoId = some tVideo) (g4 : tVideo.userID ≠ tUserID) :
    ((handlerUploadVideo cfg env db fs).result =
        .error (.forbidden "Video does not belong to this user") ∧
      (handlerUploadVideo cfg env db fs).events = [] ∧
      (handlerUploadVideo cfg env db fs).db = db ∧
      (handlerUploadVideo cfg env db fs).fs = fs) ∧
    (∀ f, te.payload = some f → f.isFile = true →
      f.size ≤ MAX_THUMBNAIL_SIZE →
      (handlerUploadThumbnail cfg te db fs).result =
        .error (.forbidden "Video does not belong to this user")) ∧
    (∀ r, (handlerUploadThumbnail cfg te db fs).result ≠ .ok r) ∧
    (∀ m, (handlerUploadThumbnail cfg te db fs).result ≠
      .error (.notFound m)) ∧
    (handlerUploadThumbnail cfg te db fs).db = db ∧
    (handlerUploadThumbnail cfg te db fs).fs = fs := by
  have hthumb :
      ((handlerUploadThumbnail cfg te db fs).result =
          .error (.badRequest "thumbnail is not a file") ∨
        (handlerUploadThumbnail cfg te db fs).result =
          .error (.badRequest "thumbnail is larger than 10MB") ∨
        (handlerUploadThumbnail cfg te db fs).result =
          .error (.forbidden "Video does not belong to this user")) ∧
      (handlerUploadThumbnail cfg te db fs).db = db ∧
      (handlerUploadThumbnail cfg te db fs).fs = fs := by
    rcases hp : te.payload with _ | f
    · simp [handlerUploadThumbnail, g1, g2, hp]
    · cases hisf : f.isFile
      · simp [handlerUploadThumbnail, g1, g2, hp, hisf]
      · by_cases hsz : f.size > MAX_THUMBNAIL_SIZE
        · simp [handlerUploadThumbnail, g1, g2, hp, hisf, hsz]
        · simp [handlerUploadThumbnail, g1, g2, hp, hisf, hsz, g3, g4]
  refine ⟨?_, ?_, ?_, ?_, hthumb.2⟩
  · simp [handlerUploadVideo, h1, h2, h3, h4]
  · intro f hf hisf hsz
    have hsz2 : ¬ (f.size > MAX_THUMBNAIL_SIZE) := not_lt.2 hsz
    simp [handlerUploadThumbnail, g1, g2, hf, hisf, hsz2, g3, g4]
  · intro r hr
    rcases hthumb.1 with h | h | h <;> rw [hr] at h <;> exact Except.noConfusion h
  · intro m hm
    rcases hthumb.1 with h | h | h <;> rw [hm] at h <;>
      exact Err.noConfusion (Except.error.inj h)

/-- Witness for C3 (amended): concrete non-owner requests; bob's video
upload against alice's record is Forbidden, and bob's thumbnail upload
with a valid payload is Forbidden. -/
theorem ownership_forbidden_amended_witness :
    (handlerUploadVideo cfg0 { envOk with auth := .ok "bob" } db0 []).result =
      .error (.forbidden "Video does not belong to this user") ∧
    (handlerUploadThumbnail cfg0 envTBValid db0 []).result =
      .error (.forbidden "Video does not belong to this user") :=
  ⟨(ownership_forbidden_amended cfg0 { envOk with auth := .ok "bob" } envTBValid
      db0 [] "v1" "bob" "v1" "bob" videoA videoA rfl rfl rfl (by decide)
      rfl rfl rfl (by decide)).1.1,
   (ownership_forbidden_amended cfg0 { envOk with auth := .ok "bob" } envTBValid
      db0 [] "v1" "bob" "v1" "bob" videoA videoA rfl rfl rfl (by decide)
      rfl rfl rfl (by decide)).2.1 ⟨true, "x.png", 5, "image/png"⟩ rfl rfl
      (by decide)⟩

/-- Counterexample for C3 as stated: bob targets alice's video with a
non-file thumbnail payload and receives BadRequest, not Forbidden — the
thumbnail handler validates the payload before the ownership check. -/
theorem thumbnail_ownership_counterexample :
    envTB.auth = .ok "bob" ∧ videoA.userID = "alice" ∧
    getVideo db0 "v1" = some videoA ∧
    (handlerUploadThumbnail cfg0 envTB db0 []).result =
      .error (.badRequest "thumbnail is not a file") :=
  ⟨rfl, rfl, by decide, by decide⟩

/-- The try-block performs at most one durable-storage write. -/
lemma body_s3_count (cfg : ApiConfig) (env : VideoEnv) (video : Video)
    (temp : String) (db : List Video) (fs : List String) :
    (uploadVideoBody cfg env video temp db fs).events.countP
      Event.isS3Write ≤ 1 := by
  simp only [uploadVideoBody]
  repeat' split
  all_goals simp [Event.isS3Write]

/-- A trace showing publish-then-update keeps showing it after appending
further events. -/
lemma publishThenUpdate_append (l l2 : List Event)
    (h : publishThenUpdate l = true) :
    publishThenUpdate (l ++ l2) = true := by
  induction l with
  | nil => simp [publishThenUpdate] at h
  | cons a t ih =>
    cases t with
    | nil => cases a <;> simp_all [publishThenUpdate]
    | cons b t2 => cases a <;> cases b <;> simp_all [publishThenUpdate]

/-- If the try-block changed the database, the S3 write succeeded and the
block's trace shows the storage write immediately followed by the record
update. -/
lemma body_publish (cfg : ApiConfig) (env : VideoEnv) (video : Video)
    (temp : String) (db : List Video) (fs : List String)
    (h : (uploadVideoBody cfg env video temp db fs).db ≠ db) :
    env.s3Ok = true ∧
    publishThenUpdate (uploadVideoBody cfg env video temp db fs).events = true := by
  simp only [uploadVideoBody] at h ⊢
  revert h
  repeat' split
  all_goals intro h
  all_goals first
    | exact absurd rfl h
    | exact ⟨by simp_all, by rfl⟩

/-- Claim C4: every invocation performs at most one durable-storage write,
and whenever the invocation changes the database the S3 write succeeded
and the trace shows the storage write immediately followed by the record
update — so the URL is persisted only after a successful write. -/
theorem single_durable_write (cfg : ApiConfig) (env : VideoEnv)
    (db : List Video) (fs : List String) :
    ((handlerUploadVideo cfg env db fs).events.countP Event.isS3Write ≤ 1) ∧
    ((handlerUploadVideo cfg env db fs).db ≠ db →
      env.s3Ok = true ∧
      publishThenUpdate (handlerUploadVideo cfg env db fs).events = true) := by
  constructor
  · simp only [handlerUploadVideo]
    repeat' split
    all_goals simp [Event.isS3Write, List.countP_append]
    all_goals exact body_s3_count _ _ _ _ _ _
  · intro hdb
    simp only [handlerUploadVideo] at hdb ⊢
    revert hdb
    repeat' split
    all_goals intro hdb
    all_goals first
      | exact absurd rfl hdb
      | exact ⟨(body_publish _ _ _ _ _ _ hdb).1,
          publishThenUpdate_append _ _ (body_publish _ _ _ _ _ _ hdb).2⟩

/-- Witness for C4: the concrete successful upload changes the database,
the S3 write succeeded, and the trace shows write-then-update. -/
theorem single_durable_write_witness :
    envOk.s3Ok = true ∧
    publishThenUpdate (handlerUploadVideo cfg0 envOk db0 []).events = true :=
  (single_durable_write cfg0 envOk db0 []).2 (by rw [envOk_run]; decide)

/-- Claim C5: with an authenticated owner and a resolved record, an
absent or non-file payload, an oversized payload (strictly above the
1 GiB / 10 MiB ceilings), or — for video — a media type other than
video/mp4 each yield BadRequest with no events, no database change and no
filesystem change; the ceilings are 2^30 and 10·2^20 bytes. -/
theorem validation_before_side_effects (cfg : ApiConfig) (env : VideoEnv)
    (te : ThumbEnv) (db : List Video) (fs : List String)
    (videoId userID tVideoId tUserID : String) (video : Video)
    (h1 : env.videoIdParam = some videoId) (h2 : env.auth = .ok userID)
    (h3 : getVideo db videoId = some video) (h4 : video.userID = userID)
    (g1 : te.videoIdParam = some tVideoId) (g2 : te.auth = .ok tUserID) :
    (env.payload = none →
      handlerUploadVideo cfg env db fs =
        ⟨.error (.badRequest "video is not a file"), db, fs, []⟩) ∧
    (∀ f, env.payload = some f → f.isFile = false →
      handlerUploadVideo cfg env db fs =
        ⟨.error (.badRequest "video is not a file"), db, fs, []⟩) ∧
    (∀ f, env.payload = some f → f.isFile = true →
      f.size > MAX_UPLOAD_SIZE →
      handlerUploadVideo cfg env db fs =
        ⟨.error (.badRequest "Video is larger than 1GB"), db, fs, []⟩) ∧
    (∀ f, env.payload = some f → f.isFile = true →
      ¬ f.size > MAX_UPLOAD_SIZE → f.type ≠ "video/mp4" →
      handlerUploadVideo cfg env db fs =
        ⟨.error (.badRequest "Only MP4 video files are allowed"), db, fs, []⟩) ∧
    (te.payload = none →
      handlerUploadThumbnail cfg te db fs =
        ⟨.error (.badRequest "thumbnail is not a file"), db, fs⟩) ∧
    (∀ f, te.payload = some f → f.isFile = false →
      handlerUploadThumbnail cfg te db fs =
        ⟨.error (.badRequest "thumbnail is not a file"), db, fs⟩) ∧
    (∀ f, te.payload = some f → f.isFile = true →
      f.size > MAX_THUMBNAIL_SIZE →
      handlerUploadThumbnail cfg te db fs =
        ⟨.error (.badRequest "thumbnail is larger than 10MB"), db, fs⟩) ∧
    MAX_UPLOAD_SIZE = 2 ^ 30 ∧ MAX_THUMBNAIL_SIZE = 10 * 2 ^ 20 := by
  refine ⟨?_, ?_, ?_, ?_, ?_, ?_, ?_, rfl, rfl⟩
  · intro hf
    simp [handlerUploadVideo, h1, h2, h3, h4, hf]
  · intro f hf hisf
    simp [handlerUploadVideo, h1, h2, h3, h4, hf, hisf]
  · intro f hf hisf hsz
    simp [handlerUploadVideo, h1, h2, h3, h4, hf, hisf, hsz]
  · intro f hf hisf hsz hty
    simp [handlerUploadVideo, h1, h2, h3, h4, hf, hisf, hsz, hty]
  · intro hf
    simp [handlerUploadThumbnail, g1, g2, hf]
  · intro f hf hisf
    simp [handlerUploadThumbnail, g1, g2, hf, hisf]
  · intro f hf hisf hsz
    simp [handlerUploadThumbnail, g1, g2, hf, hisf, hsz]

/-- Witness for C5: a wrong-media-type video upload by the owner fails
BadRequest with an empty trace and untouched state. -/
theorem validation_before_side_effects_witness :
    handlerUploadVideo cfg0 envBadType db0 [] =
      ⟨.error (.badRequest "Only MP4 video files are allowed"), db0, [], []⟩ :=
  (validation_before_side_effects cfg0 envBadType envTA db0 [] "v1" "alice"
      "v1" "alice" videoA rfl rfl (by decide) rfl rfl rfl).2.2.2.1
    { goodFile with type := "video/quicktime" } rfl rfl (by decide) (by decide)

/-- Every key passed to the S3 write inside the try-block is the
deterministic function of the probe classification and the fileID. -/
lemma body_s3_key (cfg : ApiConfig) (env : VideoEnv) (video : Video)
    (temp : String) (db : List Video) (fs : List String) :
    ∀ k, Event.s3Write k ∈ (uploadVideoBody cfg env video temp db fs).events →
      ∃ a, (∀ p, getVideoAspectRatio p env.probe = .ok a) ∧
        k = s3KeyFor a env.fileID := by
  intro k hk
  simp only [uploadVideoBody] at hk
  revert hk
  repeat' split
  all_goals intro hk
  all_goals simp at hk
  all_goals exact ⟨_, fun p =>
    (getVideoAspectRatio_path p _ env.probe).trans (by assumption), hk⟩

/-- If the try-block changed the database, it changed it to the update
with the composed public URL for the classified key. -/
lemma body_db_shape (cfg : ApiConfig) (env : VideoEnv) (video : Video)
    (temp : String) (db : List Video) (fs : List String)
    (h : (uploadVideoBody cfg env video temp db fs).db ≠ db) :
    ∃ a, (∀ p, getVideoAspectRatio p env.probe = .ok a) ∧
      (uploadVideoBody cfg env video temp db fs).db =
        updateVideo db { video with
          videoURL := some (videoURLFor cfg (s3KeyFor a env.fileID)) } := by
  simp only [uploadVideoBody] at h ⊢
  revert h
  repeat' split
  all_goals intro h
  all_goals first
    | exact absurd rfl h
    | exact ⟨_, fun p =>
        (getVideoAspectRatio_path p _ env.probe).trans (by assumption), rfl⟩

/-- Claim C7: every key written to durable storage is s3KeyFor of the
probe classification and the random fileID; when the invocation updates
the database, the persisted record carries exactly the URL composed from
the configured bucket/region base and that key; a 1920x1080 stream
classifies landscape; and the key format is the stated string
composition. -/
theorem storage_key_determinism (cfg : ApiConfig) (env : VideoEnv)
    (db : List Video) (fs : List String) :
    (∀ k, Event.s3Write k ∈ (handlerUploadVideo cfg env db fs).events →
      ∃ a, (∀ p, getVideoAspectRatio p env.probe = .ok a) ∧
        k = s3KeyFor a env.fileID) ∧
    (∀ videoId userID video, env.videoIdParam = some videoId →
      env.auth = .ok userID → getVideo db videoId = some video →
      (handlerUploadVideo cfg env db fs).db ≠ db →
      ∃ a, (∀ p, getVideoAspectRatio p env.probe = .ok a) ∧
        getVideo (handlerUploadVideo cfg env db fs).db videoId =
          some { video with
            videoURL := some (videoURLFor cfg (s3KeyFor a env.fileID)) }) ∧
    classifyAspect ((1920 : ℚ) / 1080) = "landscape" ∧
    (∀ aspect fileID, s3KeyFor aspect fileID =
      aspect ++ "/" ++ fileID ++ ".mp4") := by
  refine ⟨?_, ?_, ?_, fun aspect fileID => rfl⟩
  · intro k hk
    simp only [handlerUploadVideo] at hk
    revert hk
    repeat' split
    all_goals intro hk
    all_goals simp at hk
    all_goals exact body_s3_key _ _ _ _ _ _ k hk
  · intro videoId userID video h1 h2 h3 hdb
    simp only [handlerUploadVideo, h1, h2, h3] at hdb ⊢
    revert hdb
    repeat' split
    all_goals intro hdb
    all_goals first
      | exact absurd rfl hdb
      | (obtain ⟨a, ha, hshape⟩ := body_db_shape _ _ _ _ _ _ hdb
         dsimp only
         rw [hshape]
         exact ⟨a, ha, getVideo_updateVideo h3
           (getVideo_some_id h3 : video.id = videoId)⟩)
  · rw [show ((1920 : ℚ)/1080) = 16/9 from by norm_num]
    simp only [classifyAspect, sub_self, mathAbs_eq_abs, abs_zero]
    rw [if_pos (by norm_num : ((0 : ℚ) ≤ 2/100))]

/-- Witness for C7: the concrete successful upload persists the URL
composed from the landscape key. -/
theorem storage_key_determinism_witness :
    ∃ a, (∀ p, getVideoAspectRatio p envOk.probe = .ok a) ∧
      getVideo (handlerUploadVideo cfg0 envOk db0 []).db "v1" =
        some { videoA with
          videoURL := some (videoURLFor cfg0 (s3KeyFor a envOk.fileID)) } :=
  (storage_key_determinism cfg0 envOk db0 []).2.1 "v1" "alice" videoA rfl rfl
    (by decide) (by rw [envOk_run]; decide)

/-- Claim C8: the in-memory GET thumbnail handler (which reads no
credential — its inputs are only the db, the process-local map and the
route parameter) yields NotFound when the record is absent, NotFound when
the map has no entry for the id, and otherwise the stored bytes with the
stored media type as Content-Type. -/
theorem get_thumbnail_behavior (db : List Video)
    (thumbs : List (String × Thumbnail)) (videoId : String) :
    (getVideo db videoId = none →
      handlerGetThumbnail db thumbs (some videoId) =
        .error (.notFound "Couldn't find video")) ∧
    (∀ v, getVideo db videoId = some v → thumbs.lookup videoId = none →
      handlerGetThumbnail db thumbs (some videoId) =
        .error (.notFound "Thumbnail not found")) ∧
    (∀ v t, getVideo db videoId = some v → thumbs.lookup videoId = some t →
      handlerGetThumbnail db thumbs (some videoId) =
        .ok ⟨t.data, t.mediaType, "no-store"⟩) := by
  refine ⟨fun h => ?_, fun v h1 h2 => ?_, fun v t h1 h2 => ?_⟩
  · simp [handlerGetThumbnail, h]
  · simp [handlerGetThumbnail, h1, h2]
  · simp [handlerGetThumbnail, h1, h2]

/-- Witness for C8: concrete stored bytes are returned with their stored
media type. -/
theorem get_thumbnail_behavior_witness :
    getVideo db0 "v1" = some videoA ∧
    thumbs0.lookup "v1" = some ⟨[1, 2, 3], "image/png"⟩ ∧
    handlerGetThumbnail db0 thumbs0 (some "v1") =
      .ok ⟨[1, 2, 3], "image/png", "no-store"⟩ :=
  ⟨by decide, by decide,
   (get_thumbnail_behavior db0 thumbs0 "v1").2.2 videoA ⟨[1, 2, 3], "image/png"⟩
     (by decide) (by decide)⟩

/-- Claim C9: whenever either upload handler succeeds, the 200 body is the
record re-fetched from the (post-update) database keyed by the resolved
record's own id, which equals the request's videoId parameter. -/
theorem response_refetched_after_update (cfg : ApiConfig) (env : VideoEnv)
    (te : ThumbEnv) (db : List Video) (fs : List String) :
    (∀ r, (handlerUploadVideo cfg env db fs).result = .ok r →
      ∃ videoId video, env.videoIdParam = some videoId ∧
        getVideo db videoId = some video ∧ video.id = videoId ∧
        r = (200, getVideo (handlerUploadVideo cfg env db fs).db video.id)) ∧
    (∀ r, (handlerUploadThumbnail cfg te db fs).result = .ok r →
      ∃ videoId video, te.videoIdParam = some videoId ∧
        getVideo db videoId = some video ∧ video.id = videoId ∧
        r = (200, getVideo (handlerUploadThumbnail cfg te db fs).db video.id)) := by
  constructor
  · intro r h
    simp only [handlerUploadVideo] at h ⊢
    revert h
    repeat' split
    all_goals intro h
    all_goals simp at h
    all_goals exact ⟨_, _, by assumption, by assumption,
      getVideo_some_id (by assumption), h.symm⟩
  · intro r h
    simp only [handlerUploadThumbnail] at h ⊢
    revert h
    repeat' split
    all_goals intro h
    all_goals simp at h
    exact ⟨_, _, by assumption, by assumption,
      getVideo_some_id (by assumption), h.symm⟩

/-- Witness for C9: the concrete successful video upload responds 200 with
the re-fetched updated record. -/
theorem response_refetched_witness :
    (handlerUploadVideo cfg0 envOk db0 []).result = .ok (200, some videoA2) ∧
    ∃ videoId video, envOk.videoIdParam = some videoId ∧
      getVideo db0 videoId = some video ∧ video.id = videoId ∧
      ((200 : Nat), some videoA2) =
        (200, getVideo (handlerUploadVideo cfg0 envOk db0 []).db video.id) :=
  ⟨by rw [envOk_run], (response_refetched_after_update cfg0 envOk envTA db0 []).1
      (200, some videoA2) (by rw [envOk_run])⟩

/-- Claim C10: in the filesystem thumbnail revision, when the segment of
the declared media type after the first slash is missing or empty the
handler fails BadRequest (with the source's misspelled message) leaving
state untouched; otherwise the stored file's extension is exactly that
segment. -/
theorem thumbnail_extension_rule (cfg : ApiConfig) (te : ThumbEnv)
    (db : List Video) (fs : List String) (videoId userID : String)
    (video : Video) (f : UploadedFile)
    (h1 : te.videoIdParam = some videoId) (h2 : te.auth = .ok userID)
    (h5 : te.payload = some f) (h6 : f.isFile = true)
    (h7 : f.size ≤ MAX_THUMBNAIL_SIZE)
    (h3 : getVideo db videoId = some video) (h4 : video.userID = userID) :
    ((specSubtypeSegment f.type.toList = none ∨
      specSubtypeSegment f.type.toList = some []) →
      handlerUploadThumbnail cfg te db fs =
        ⟨.error (.badRequest "Invlid media type"), db, fs⟩) ∧
    (∀ ext, specSubtypeSegment f.type.toList = some ext → ext ≠ [] →
      (handlerUploadThumbnail cfg te db fs).fs =
        pathJoin cfg.assetsRoot (te.fileID ++ "." ++ String.mk ext) :: fs) := by
  have hsz : ¬ (f.size > MAX_THUMBNAIL_SIZE) := not_lt.2 h7
  have hidx : (jsSplit '/' f.type.data)[1]? = specSubtypeSegment f.type.data :=
    jsSplit_idx1 f.type.data
  constructor
  · rintro (hseg | hseg) <;>
      simp only [String.toList] at hseg <;>
      simp [handlerUploadThumbnail, h1, h2, h5, h6, hsz, h3, h4, hidx, hseg]
  · intro ext hseg hne
    simp only [String.toList] at hseg
    simp [handlerUploadThumbnail, h1, h2, h5, h6, hsz, h3, h4, hidx, hseg, hne]

/-- Witness for C10: a PNG upload stores a .png file; here the segment
after the first slash of image/png is png. -/
theorem thumbnail_extension_rule_witness :
    (handlerUploadThumbnail cfg0 envTA db0 []).fs =
      [pathJoin cfg0.assetsRoot ("fid" ++ "." ++ String.mk ['p', 'n', 'g'])] :=
  (thumbnail_extension_rule cfg0 envTA db0 [] "v1" "alice" videoA
      ⟨true, "x.png", 5, "image/png"⟩ rfl rfl rfl rfl (by decide) (by decide)
      rfl).2 ['p', 'n', 'g'] (by decide) (by decide)

/-- Claim C1 (amended): once staging has succeeded (the staged file
exists), the finally block removes the staged file exactly once and the
processed artifact exactly once when it was created, neither survives the
invocation, and the try-block's outcome — error or success — is reported
unchanged. When the staged file is absent at cleanup time (for example
the staging write itself failed), rm is invoked without force, raises
ENOENT, and that error replaces the original failure (see the
counterexample). -/
theorem cleanup_scoped_release (cfg : ApiConfig) (env : VideoEnv)
    (db : List Video) (fs : List String) (videoId userID : String)
    (video : Video) (videoFile : UploadedFile) (temp : String)
    (h1 : env.videoIdParam = some videoId)
    (h2 : env.auth = .ok userID)
    (h3 : getVideo db videoId = some video)
    (h4 : video.userID = userID)
    (h5 : env.payload = some videoFile)
    (h6 : videoFile.isFile = true)
    (h7 : ¬ videoFile.size > MAX_UPLOAD_SIZE)
    (h8 : videoFile.type = "video/mp4")
    (h9 : env.writeOk = true)
    (htemp : temp = pathJoin cfg.filepathRoot (env.fileID ++ extname videoFile.name))
    (h10 : temp ∉ fs) (h11 : temp ++ ".processed" ∉ fs) :
    ((handlerUploadVideo cfg env db fs).events.count (Event.rmCall temp) = 1) ∧
    (∀ p, (uploadVideoBody cfg env video temp db fs).processedFilePath = some p →
      (handlerUploadVideo cfg env db fs).events.count (Event.rmCall p) = 1 ∧
      p ∉ (handlerUploadVideo cfg env db fs).fs) ∧
    temp ∉ (handlerUploadVideo cfg env db fs).fs ∧
    (∀ e, (uploadVideoBody cfg env video temp db fs).result = .error e →
      (handlerUploadVideo cfg env db fs).result = .error e) ∧
    (∀ v2, (uploadVideoBody cfg env video temp db fs).result = .ok v2 →
      (handlerUploadVideo cfg env db fs).result =
        .ok (200, getVideo (uploadVideoBody cfg env video temp db fs).db video.id)) := by
  subst htemp
  have hne := append_processed_ne
    (pathJoin cfg.filepathRoot (env.fileID ++ extname videoFile.name))
  have hne2 : pathJoin cfg.filepathRoot (env.fileID ++ extname videoFile.name) ≠
      pathJoin cfg.filepathRoot (env.fileID ++ extname videoFile.name) ++ ".processed" :=
    fun h => hne h.symm
  simp only [handlerUploadVideo, uploadVideoBody, processVideoForFastStart,
    h1, h2, h3, h4, h5, h6, h7, h8, h9]
  by_cases hex : env.ffmpeg.exitCode = 0
  · simp only [hex, ne_eq, not_true_eq_false, if_false, ite_false, ite_true,
      not_false_eq_true, if_neg, if_pos]
    rcases hpr : getVideoAspectRatio
        ((pathJoin cfg.filepathRoot (env.fileID ++ extname videoFile.name))
          ++ ".processed") env.probe with msg | aspect <;>
      simp only [hpr] <;>
      [skip; by_cases hs3 : env.s3Ok = true] <;>
      simp_all [rm_head, rm_temp_after_processed, List.count_cons, hne, hne2,
        h10, h11]
  · simp_all [rm_head, rm_temp_after_processed, List.count_cons, hne, hne2,
      h10, h11]

/-- Witness for C1 (amended): in the concrete successful upload the staged
file is removed exactly once. -/
theorem cleanup_scoped_release_witness :
    (handlerUploadVideo cfg0 envOk db0 []).events.count
      (Event.rmCall "/tmp/videos/abcd.mp4") = 1 :=
  (cleanup_scoped_release cfg0 envOk db0 [] "v1" "alice" videoA goodFile
    "/tmp/videos/abcd.mp4" rfl rfl (by decide) rfl rfl rfl (by decide) rfl rfl
    (by decide) (by decide) (by decide)).1

/-- Counterexample for C1 as stated: staging begins (Bun.write is
attempted) but the write fails leaving no file; the finally block's rm
then raises ENOENT — cleanup raises although the file is already absent —
and that ENOENT replaces the original staging failure in the reported
outcome. -/
theorem cleanup_enoent_counterexample :
    Event.writeTemp "/tmp/videos/abcd.mp4" ∈
      (handlerUploadVideo cfg0 envNoWrite db0 []).events ∧
    (uploadVideoBody cfg0 envNoWrite videoA "/tmp/videos/abcd.mp4" db0 []).result =
      .error (.internal "Bun.write failed") ∧
    (handlerUploadVideo cfg0 envNoWrite db0 []).result =
      .error (.internal "ENOENT") :=
  ⟨by decide, by decide, by decide⟩

/-- Claim C6: a non-zero ffmpeg exit yields an error carrying stderr (or
stdout when stderr is empty) and aborts the whole handler with that
error; ffmpeg success produces the output at the input path plus the
fixed ".processed" suffix; a non-zero ffprobe exit yields an error
carrying stderr; and the probe fails fatally when there is no parseable
stream/dimension pair or a dimension is non-positive. -/
theorem external_tool_failures (cfg : ApiConfig) (env : VideoEnv)
    (db : List Video) (fs : List String) :
    (∀ p t, t.exitCode ≠ 0 → processVideoForFastStart p t =
      .error ("ffmpeg faststart failed with exit code " ++ toString t.exitCode
        ++ ": " ++ (if t.stderrText ≠ "" then t.stderrText else t.stdoutText))) ∧
    (∀ p t, t.exitCode = 0 →
      processVideoForFastStart p t = .ok (p ++ ".processed")) ∧
    (∀ p e, e.run.exitCode ≠ 0 → getVideoAspectRatio p e =
      .error ("ffprobe failed with exit code " ++ toString e.run.exitCode
        ++ ": " ++ e.run.stderrText)) ∧
    (∀ p e, probeDims e = none → ∃ m, getVideoAspectRatio p e = .error m) ∧
    (∀ p e w h, e.run.exitCode = 0 → probeDims e = some (w, h) →
      w ≤ 0 ∨ h ≤ 0 →
      getVideoAspectRatio p e =
        .error "ffprobe did not return valid width/height") ∧
    (∀ videoId userID video videoFile,
      env.videoIdParam = some videoId → env.auth = .ok userID →
      getVideo db videoId = some video → video.userID = userID →
      env.payload = some videoFile → videoFile.isFile = true →
      ¬ videoFile.size > MAX_UPLOAD_SIZE → videoFile.type = "video/mp4" →
      env.writeOk = true → env.ffmpeg.exitCode ≠ 0 →
      (handlerUploadVideo cfg env db fs).result =
        .error (.internal ("ffmpeg faststart failed with exit code "
          ++ toString env.ffmpeg.exitCode ++ ": "
          ++ (if env.ffmpeg.stderrText ≠ "" then env.ffmpeg.stderrText
              else env.ffmpeg.stdoutText)))) := by
  refine ⟨?_, ?_, ?_, ?_, ?_, ?_⟩
  · intro p t ht
    simp [processVideoForFastStart, ht]
  · intro p t ht
    simp [processVideoForFastStart, ht]
  · intro p e he
    simp [getVideoAspectRatio, he]
  · intro p e hd
    by_cases he : e.run.exitCode = 0
    · rcases hp : e.parsed with _ | streams
      · exact ⟨"Unexpected end of JSON input",
          by simp [getVideoAspectRatio, he, hp]⟩
      · rcases hs : streams.head? with _ | stream
        · exact ⟨"ffprobe did not return valid width/height",
            by simp [getVideoAspectRatio, he, hp, hs]⟩
        · rcases hw : stream.width with _ | w
          · exact ⟨"ffprobe did not return valid width/height",
              by simp [getVideoAspectRatio, he, hp, hs, hw]⟩
          · rcases hh : stream.height with _ | hgt
            · exact ⟨"ffprobe did not return valid width/height",
                by simp [getVideoAspectRatio, he, hp, hs, hw, hh]⟩
            · exfalso
              simp [probeDims, hp, hs, hw, hh] at hd
    · exact ⟨"ffprobe failed with exit code " ++ toString e.run.exitCode
        ++ ": " ++ e.run.stderrText, by simp [getVideoAspectRatio, he]⟩
  · intro p e w h he hd hwh
    rcases hp : e.parsed with _ | streams
    · simp [probeDims, hp] at hd
    · rcases hs : streams.head? with _ | stream
      · simp [probeDims, hp, hs] at hd
      · rcases hw : stream.width with _ | w2
        · simp [probeDims, hp, hs, hw] at hd
        · rcases hh : stream.height with _ | h2
          · simp [probeDims, hp, hs, hw, hh] at hd
          · simp only [probeDims, hp, hs, hw, hh] at hd
            obtain ⟨rfl, rfl⟩ : w2 = w ∧ h2 = h := by
              simpa using hd
            simp [getVideoAspectRatio, he, hp, hs, hw, hh, hwh]
  · intro videoId userID video videoFile hq1 hq2 hq3 hq4 hq5 hq6 hq7 hq8 hq9 hex
    simp only [handlerUploadVideo, uploadVideoBody, processVideoForFastStart,
      hq1, hq2, hq3, hq4, hq5, hq6, hq7, hq8, hq9]
    simp [hex, rm_head]

/-- Witness for C6: the concrete failing ffmpeg aborts the whole upload
with its stderr attached, and a clean ffmpeg exit yields the fixed-suffix
output path. -/
theorem external_tool_failures_witness :
    (handlerUploadVideo cfg0 envFfmpegFail db0 []).result =
      .error (.internal ("ffmpeg faststart failed with exit code "
        ++ toString envFfmpegFail.ffmpeg.exitCode ++ ": "
        ++ (if envFfmpegFail.ffmpeg.stderrText ≠ "" then
              envFfmpegFail.ffmpeg.stderrText
            else envFfmpegFail.ffmpeg.stdoutText))) ∧
    processVideoForFastStart "in.mp4" ⟨0, "", ""⟩ =
      .ok ("in.mp4" ++ ".processed") :=
  ⟨(external_tool_failures cfg0 envFfmpegFail db0 []).2.2.2.2.2 "v1" "alice"
      videoA goodFile rfl rfl (by decide) rfl rfl rfl (by decide) rfl rfl
      (by decide),
   (external_tool_failures cfg0 envFfmpegFail db0 []).2.1 "in.mp4"
      ⟨0, "", ""⟩ rfl⟩
